import Mathlib

/-!
# RightsGuard — verification of the Automation Orchestration Engine spec

Shallow embedding of the RightsGuard repository (Next.js + Tauri desktop app
that automates Bilibili copyright-appeal submission).  The embedded code:

* `src/lib/tauri-api.ts` — the frontend API client with its non-Tauri mocks;
* `tests/temp_connect_script.spec.js` — the generated Playwright automation
  script: file validation, the five-strategy upload loop, the verification
  wait loop;
* `temp_connect_script.spec.js` / `test_browser_connection.spec.js` — the
  CDP-only and three-strategy browser-connection script variants;
* `src/app/page.tsx` — the dashboard's browser-connection monitoring with
  its 2s/3s/5s backoff and 15-attempt cap;
* the Tauri command wrapper `copyFileToAppData` and the staged-file path
  layout `files/<category>/<subcategory>/<basename>_<timestamp>.<ext>`.

The Rust backend (`src-tauri/`) is not part of the available sources; where a
claim depends on it (the AutomationController state machine, the generic
`acquire(preferredStrategy?)` entry point) the definition is modelled from
the specification and marked as such in its doc comment.
-/

set_option maxRecDepth 8192

namespace RightsGuard

/-! ## TauriAPI client (`src/lib/tauri-api.ts`)

`TauriAPI` methods branch on `this.isTauri`: outside the Tauri desktop shell
every method is a mock that never calls `invoke`.  Effects are recorded as an
explicit list so that "no backend command is invoked" is expressible. -/

/-- Observable effects of a `TauriAPI` method call: showing a browser `alert`
or invoking a named Tauri backend command via `invoke`. -/
inductive ApiEffect where
  | alertShown (message : String)
  | backendInvoked (command : String)
  deriving DecidableEq, Repr

/-- The `AutomationStatus` interface declared in `src/lib/tauri-api.ts`
(`isRunning`, optional `currentStep`, `progress`, `error`). -/
structure AutomationStatus where
  isRunning : Bool
  currentStep : Option String := none
  progress : Option Nat := none
  error : Option String := none
  deriving DecidableEq, Repr

/-- Embeds `TauriAPI.startAutomation` (src/lib/tauri-api.ts:295-317): when
`isTauri` is false it shows a mock alert and returns without invoking any
backend command; when true it invokes the `start_automation` command.  The
result is the list of effects the call performs. -/
def startAutomationApi (isTauri : Bool) : List ApiEffect :=
  if isTauri then
    [ApiEffect.backendInvoked "start_automation"]
  else
    [ApiEffect.alertShown "mock automation"]

/-- Embeds `TauriAPI.getAutomationStatus` (src/lib/tauri-api.ts:335-355):
when `isTauri` is false it returns the mock status
`isRunning: false, currentStep: '完成', progress: 100` with no backend call;
when true it invokes `get_automation_status` and returns the backend's
status. -/
def getAutomationStatusApi (isTauri : Bool) (backend : AutomationStatus) :
    AutomationStatus × List ApiEffect :=
  if isTauri then
    (backend, [ApiEffect.backendInvoked "get_automation_status"])
  else
    ({ isRunning := false, currentStep := some "完成", progress := some 100 }, [])

/-- True when an effect list contains at least one backend `invoke`. -/
def invokesBackend (effects : List ApiEffect) : Bool :=
  effects.any fun e =>
    match e with
    | ApiEffect.backendInvoked _ => true
    | _ => false

/-! ## File staging (`copyFileToAppData` and the staged-file layout)

The frontend wrapper `copyFileToAppData(sourcePath, category, subcategory)`
lives in the Tauri API client; its non-Tauri branch returns
`files/<category>/<subcategory>/mock_<Date.now()>.jpg`.  The backend command
`copy_file_to_app_data` itself is in the Rust sources (absent here); the
relative paths it returns are evidenced by the staged id-card paths baked
into the generated script
(`...\files\profiles\id_cards\test_1756095658.png`,
`...\files\profiles\id_cards\屏幕截图 2025-07-20 115009_1756095658.png`)
and by the repository notes (directory tree `files/profiles/id_cards/`,
`files/ip_assets/auth_docs/`, `files/ip_assets/proof_docs/`). -/

/-- Boolean string-prefix test, used to state "the returned relative path
begins with ...". -/
def strStarts (s p : String) : Bool :=
  p.data.isPrefixOf s.data

/-- Embeds the non-Tauri branch of `copyFileToAppData` (Tauri API client,
file management API): it returns the relative path
`files/<category>/<subcategory>/mock_<now>.jpg`. -/
def copyFileToAppDataMock (category subcategory : String) (now : Nat) : String :=
  "files/" ++ category ++ "/" ++ subcategory ++ "/mock_" ++ toString now ++ ".jpg"

/-- Modelled from the spec: the backend `copy_file_to_app_data` command
(Rust `src-tauri/src/commands.rs`, not among the available sources) — the
spec's `stage(sourcePath, category, subcategory)`.  It copies the source
into the app-data tree and returns a relative identifier whose final
component is the original basename suffixed with a timestamp disambiguator;
the root component `files/` of the returned relative path is taken from the
staged paths embedded in the generated script and from the mock branch of
the frontend wrapper. -/
def stage (baseName ext category subcategory : String) (timestamp : Nat) : String :=
  "files/" ++ category ++ "/" ++ subcategory ++ "/" ++
    baseName ++ "_" ++ toString timestamp ++ "." ++ ext

/-! ## AutomationController (modelled from the spec)

The controller — the Rust `start_automation` / `stop_automation` command
handlers and the `Arc<Mutex<AutomationStatus>>` they guard — is in
`src-tauri/`, absent from the available sources.  States and transitions are
modelled from spec §3/§4.6; the `Idle` state is represented by `task = none`
(no task exists). -/

/-- Task states from spec §3.  `Idle` is represented as the absence of a
task (`Option.none` below). -/
inductive TaskState where
  | launching
  | connecting
  | fillingForm
  | awaitingVerification
  | resuming
  | uploading
  | awaitingFinalConfirmation
  | completed
  | failed
  | cancelled
  deriving DecidableEq, Repr

/-- Terminal states: Completed, Failed, Cancelled. -/
def TaskState.isTerminal : TaskState → Bool
  | TaskState.completed => true
  | TaskState.failed => true
  | TaskState.cancelled => true
  | _ => false

/-- Controller state: the single in-flight task (none when idle / the
previous task was destroyed on reaching a terminal state). -/
structure ControllerState where
  task : Option TaskState
  deriving DecidableEq, Repr

/-- A previously started task exists and has not reached a terminal state. -/
def ControllerState.hasActiveTask (s : ControllerState) : Bool :=
  match s.task with
  | some st => !st.isTerminal
  | none => false

/-- Outcome of a `startAutomation` command. -/
inductive StartOutcome where
  | started
  | taskAlreadyRunning
  deriving DecidableEq, Repr

/-- Modelled from the spec: `startAutomation` / `start()` of the
AutomationController (spec §4.6, §6): it fails with `TaskAlreadyRunning`
while a previously started task is non-terminal, and otherwise creates the
new task in its initial state `Launching`. -/
def startAutomation (s : ControllerState) : StartOutcome × ControllerState :=
  if s.hasActiveTask then (StartOutcome.taskAlreadyRunning, s)
  else (StartOutcome.started, ⟨some TaskState.launching⟩)

/-- Events driving the controller besides `start`. -/
inductive ControllerEvent where
  | cmdStart
  | cmdStop
  | advance (next : TaskState)
  deriving DecidableEq, Repr

/-- Modelled from the spec: the controller's reaction to events (spec §4.6):
`stop()` is valid from any non-terminal state and forces a transition to
Cancelled (no-op when idle or already terminal); `advance` is the background
execution context moving the task along the state enum's edges. -/
def controllerStep (s : ControllerState) (e : ControllerEvent) : ControllerState :=
  match e with
  | ControllerEvent.cmdStart => (startAutomation s).2
  | ControllerEvent.cmdStop =>
    match s.task with
    | some st => if st.isTerminal then s else ⟨some TaskState.cancelled⟩
    | none => s
  | ControllerEvent.advance next =>
    match s.task with
    | some st => if st.isTerminal then s else ⟨some next⟩
    | none => s

/-! ## Verification handoff wait loop (generated Playwright script)

tests/temp_connect_script.spec.js:764-773 (same loop at
temp_connect_script.spec.js:32-40):

`fs.writeFileSync(waiting_for_verification.txt, 'waiting');`
`while (true) { if (fs.existsSync(verification_completed.txt)) { unlink both; break; } await page.waitForTimeout(1000); }` -/

/-- Embeds the verification wait loop.  `completedSignal k` tells whether
`verification_completed.txt` exists at the k-th poll; `cancelRequested k`
tells whether a stop/cancellation request is pending at the k-th poll — the
loop's condition never consults it, which the claims about cancellation are
stated against.  `fuel` bounds how many polls are unfolded (the code itself
has no bound); polls are 1000 ms apart.  Returns `some k` when the loop
breaks at poll `k` (the operator signal was seen), `none` when the loop is
still polling after `fuel` polls. -/
def verificationWait (completedSignal : Nat → Bool) (cancelRequested : Nat → Bool) :
    Nat → Nat → Option Nat
  | 0, _ => none
  | fuel + 1, k =>
    if completedSignal k then some k
    else verificationWait completedSignal cancelRequested fuel (k + 1)

/-! ## Upload file validation and strategy loop (generated Playwright script)

tests/temp_connect_script.spec.js:177-281 (strategy table and file
validation) and 283-732 (the strategy loop). -/

/-- The five upload-strategy kinds, in the order of the `selectorStrategies`
table (tests/temp_connect_script.spec.js:177-188). -/
inductive StrategyKind where
  | elementUiApi
  | hiddenInput
  | visibleInput
  | chooser
  | fallback
  deriving DecidableEq, Repr

/-- The ordered strategy table: Element UI API call, hidden input, visible
input, FileChooser, click-then-set fallback. -/
def selectorStrategies : List StrategyKind :=
  [StrategyKind.elementUiApi, StrategyKind.hiddenInput, StrategyKind.visibleInput,
   StrategyKind.chooser, StrategyKind.fallback]

/-- What the page presents to one strategy attempt: whether the element the
strategy needs is found/visible (and, for the chooser strategy, whether the
filechooser event fires), the attached-item indicator count observed after
the bounded settle wait (the maximum over the indicator selector variants),
and — for the hidden-input strategy's per-file loop — how many files were
successfully set on the input element. -/
structure AttemptObs where
  present : Bool
  indicatorCount : Nat
  filesSet : Nat
  deriving DecidableEq, Repr

/-- Success decision of one strategy attempt, as in the code:
* `element_ui_api` — the injected page function unconditionally returns
  `success: false` ("Cannot create real File objects with content in browser
  context" / "Vue instance not found"), so this strategy never succeeds;
* `hidden_input` — success when the indicator count is non-zero OR at least
  one file was set on the input (`totalUploadItems > 0 || successfulUploads > 0`);
* `visible_input`, `chooser`, `fallback` — success exactly when the
  indicator count is non-zero. -/
def attemptSucceeds : StrategyKind → AttemptObs → Bool
  | StrategyKind.elementUiApi, _ => false
  | StrategyKind.hiddenInput, o => o.present && (o.indicatorCount != 0 || o.filesSet != 0)
  | StrategyKind.visibleInput, o => o.present && o.indicatorCount != 0
  | StrategyKind.chooser, o => o.present && o.indicatorCount != 0
  | StrategyKind.fallback, o => o.present && o.indicatorCount != 0

/-- The success check the claim describes: a non-zero attached-item
indicator count after the settle wait (and the strategy's element being
reachable at all). -/
def indicatorSuccess (o : AttemptObs) : Bool :=
  o.present && o.indicatorCount != 0

/-- Embeds the strategy loop
`for (let i = 0; i < selectorStrategies.length && !uploadSuccess; i++)`
with `break` on success
(tests/temp_connect_script.spec.js:285-732): runs over the remaining
strategies, `i` being the current index and `obs i` the observations of
attempt `i`.  Returns the list of attempted indices and the index of the
successful strategy, if any. -/
def runStrategies (obs : Nat → AttemptObs) :
    List StrategyKind → Nat → List Nat × Option Nat
  | [], _ => ([], none)
  | st :: rest, i =>
    if attemptSucceeds st (obs i) then ([i], some i)
    else
      let r := runStrategies obs rest (i + 1)
      (i :: r.1, r.2)

/-- The full strategy loop over the strategy table. -/
def uploadLoop (obs : Nat → AttemptObs) : List Nat × Option Nat :=
  runStrategies obs selectorStrategies 0

/-- The strategy table with the loop index of each entry. -/
def strategyTable : List (Nat × StrategyKind) :=
  [(0, StrategyKind.elementUiApi), (1, StrategyKind.hiddenInput),
   (2, StrategyKind.visibleInput), (3, StrategyKind.chooser),
   (4, StrategyKind.fallback)]

/-- The index of the first strategy whose code-level success check passes. -/
def firstSuccessIdx (obs : Nat → AttemptObs) : Option Nat :=
  (strategyTable.find? fun p => attemptSucceeds p.2 (obs p.1)).map fun p => p.1

/-- The index the claim predicts the loop stops at: the first strategy whose
post-attempt attached-item indicator count is non-zero. -/
def firstIndicatorIdx (obs : Nat → AttemptObs) : Option Nat :=
  (List.range selectorStrategies.length).find? fun i => indicatorSuccess (obs i)

/-- One input file as the validation loop observes it
(tests/temp_connect_script.spec.js:193-281): whether `fs.existsSync` finds
it at its given path, its `fs.statSync(...).size`, and whether one of the
alternative path spellings (separator variants / normalized) exists. -/
structure FileCheck where
  onDiskAtPath : Bool
  size : Nat
  onDiskAtAltPath : Bool
  deriving DecidableEq, Repr

/-- Embeds the file-validation loop: an existing file is always pushed to
`validFiles` — a zero-byte file only appends a warning string to
`fileValidationErrors`; a missing file is pushed only when one of its
alternative paths exists. -/
def validFiles (files : List FileCheck) : List FileCheck :=
  files.filter fun f => f.onDiskAtPath || f.onDiskAtAltPath

/-- After the validation loop the code throws
(`没有找到有效的身份证文件...`) exactly when `validFiles` is empty
(tests/temp_connect_script.spec.js:274-277); otherwise the strategy loop
runs with the surviving files. -/
def validationAborts (files : List FileCheck) : Bool :=
  (validFiles files).isEmpty

/-- Result of the whole id-card upload block as the enclosing script sees
it: either execution proceeds to the next flow step (carrying the final
value of `uploadSuccess`), or an error escapes the block. -/
inductive UploadBlockResult where
  | continuedFlow (uploadSuccess : Bool)
  | raisedError (message : String)
  deriving DecidableEq, Repr

/-- True when the block result lets the script continue with the next flow
step (the verification wait). -/
def continuesFlow : UploadBlockResult → Bool
  | UploadBlockResult.continuedFlow _ => true
  | UploadBlockResult.raisedError _ => false

/-- Embeds the id-card upload block (tests/temp_connect_script.spec.js:37-762):
validation, then the strategy loop, then — when `uploadSuccess` is still
false — a diagnostics block that only logs; the whole block sits in
`try { ... } catch (error) { console.error('❌ 身份证文件上传整体失败: ', error); }`
whose catch swallows every error (the `throw` for an empty valid-file list
included) without rethrowing, after which the script continues with the
verification-wait step.  Exhaustion of all strategies therefore never
raises anything; it only logs. -/
def idCardUploadBlock (files : List FileCheck) (obs : Nat → AttemptObs) :
    UploadBlockResult :=
  if validationAborts files then
    UploadBlockResult.continuedFlow false
  else
    UploadBlockResult.continuedFlow (uploadLoop obs).2.isSome

/-! ## Browser-connection monitoring (`src/app/page.tsx`)

`startMonitoring` / `scheduleNextCheck` (page.tsx:1020-1118) and the status
mapping in `checkBrowserConnection` (page.tsx:991-1011). -/

/-- Backoff selection in `scheduleNextCheck` (page.tsx:1092-1102): 2 s while
`checkCount <= 3`, 3 s while `checkCount <= 8`, 5 s beyond. -/
def backoffInterval (checkCount : Nat) : Nat :=
  if checkCount ≤ 3 then 2000
  else if checkCount ≤ 8 then 3000
  else 5000

/-- What one `check_browser_connection_status` probe reports. -/
inductive BrowserProbe where
  | connected
  | runningNoDebug
  | notRunning
  deriving DecidableEq, Repr

/-- The frontend `browserStatus` values relevant to the monitoring loop. -/
inductive MonitorState where
  | disconnected
  | starting
  | connected
  deriving DecidableEq, Repr

/-- Embeds the status mapping of `checkBrowserConnection`
(page.tsx:991-1011): "connected" → connected, counter reset;
"running_no_debug" → starting, counter incremented; default → disconnected,
counter reset. -/
def applyProbe (p : BrowserProbe) (count : Nat) : MonitorState × Nat :=
  match p with
  | BrowserProbe.connected => (MonitorState.connected, 0)
  | BrowserProbe.runningNoDebug => (MonitorState.starting, count + 1)
  | BrowserProbe.notRunning => (MonitorState.disconnected, 0)

/-- How a monitoring run ends. -/
inductive MonitorOutcome where
  | timedOut (attempts : Nat)
  | connectedAfter (attempts : Nat)
  | stillPolling
  deriving DecidableEq, Repr

/-- Embeds `scheduleNextCheck` (page.tsx:1034-1111) unfolded along a run.
At each scheduled callback with frontend status `st` and check count
`count`: if `st = starting` and `count ≥ 15`, monitoring stops and the
timeout diagnostics carrying the attempt count are shown; else if not
connected, one `checkBrowserConnection` runs against the result of the
`k`-th probe and the next callback is scheduled after
`backoffInterval count` (the count read at callback entry); else monitoring
stops because the browser connected.  The returned list collects the
scheduled intervals; `fuel` bounds the unfolding. -/
def monitorRun (probe : Nat → BrowserProbe) :
    Nat → MonitorState → Nat → Nat → List Nat × MonitorOutcome
  | 0, _, _, _ => ([], MonitorOutcome.stillPolling)
  | fuel + 1, st, count, k =>
    if st = MonitorState.starting ∧ 15 ≤ count then
      ([], MonitorOutcome.timedOut count)
    else if st = MonitorState.connected then
      ([], MonitorOutcome.connectedAfter count)
    else
      let next := applyProbe (probe k) count
      let r := monitorRun probe fuel next.1 next.2 (k + 1)
      (backoffInterval count :: r.1, r.2)

/-! ## Browser-connection strategies

The three-strategy fallback chain (test_browser_connection.spec.js:78-106)
and the CDP-only variant (temp_connect_script.spec.js:11-19). -/

/-- The `ConnectionStrategy` enum of spec §3. -/
inductive ConnectionStrategy where
  | attachExisting
  | persistentProfile
  | ephemeral
  deriving DecidableEq, Repr

/-- The fixed preference order {AttachExisting, PersistentProfile,
Ephemeral}. -/
def fallbackOrder : List ConnectionStrategy :=
  [ConnectionStrategy.attachExisting, ConnectionStrategy.persistentProfile,
   ConnectionStrategy.ephemeral]

/-- Embeds the three-strategy chain of test_browser_connection.spec.js:78-106:
`connectOverCDP` (attach to the local debugging endpoint), on failure
`launchPersistentContext` with the dedicated profile directory, on failure
plain `launch`; nested try/catch, so the first success wins and only the
last failure propagates.  `env s` says whether strategy `s` succeeds on the
current machine; `none` means every strategy failed. -/
def acquireChain (env : ConnectionStrategy → Bool) : Option ConnectionStrategy :=
  if env ConnectionStrategy.attachExisting then some ConnectionStrategy.attachExisting
  else if env ConnectionStrategy.persistentProfile then some ConnectionStrategy.persistentProfile
  else if env ConnectionStrategy.ephemeral then some ConnectionStrategy.ephemeral
  else none

/-- Embeds the CDP-only variant (temp_connect_script.spec.js:11-19): only
`connectOverCDP` is attempted; on failure the error is logged and rethrown
("Fallback strategies removed"). -/
def acquireCdpOnly (env : ConnectionStrategy → Bool) : Option ConnectionStrategy :=
  if env ConnectionStrategy.attachExisting then some ConnectionStrategy.attachExisting
  else none

/-- Modelled from the spec: `acquire(preferredStrategy?)` of the
BrowserConnectionManager (spec §4.2; the Rust backend is absent from the
sources): with no preferred strategy the ordered fallback chain of the
three-strategy script variant runs; with a pinned strategy only that
strategy is attempted and its failure surfaces directly — the CDP-only
script variant is the source's pinned-AttachExisting instance of this. -/
def acquire (env : ConnectionStrategy → Bool) :
    Option ConnectionStrategy → Option ConnectionStrategy
  | none => acquireChain env
  | some s => if env s then some s else none

/-! ## Helper lemmas -/

/-- A list is a `isPrefixOf` of itself followed by anything. -/
lemma isPrefixOf_append (l r : List Char) : l.isPrefixOf (l ++ r) = true := by
  induction l with
  | nil => cases r <;> rfl
  | cons a t ih => simp [List.isPrefixOf, List.cons_append, ih]

/-- With the completion signal never set, the verification wait loop is
still polling after any number of polls. -/
lemma verificationWait_none (cancel : Nat → Bool) :
    ∀ fuel k, verificationWait (fun _ => false) cancel fuel k = none := by
  intro fuel
  induction fuel with
  | zero => intro k; rfl
  | succ n ih => intro k; simpa [verificationWait] using ih (k + 1)

end RightsGuard

namespace RightsGuard

/-! ## Claims -/

/-- C1.  At most one automation task is non-terminal at a time: for every
controller state, `startAutomation` fails with `TaskAlreadyRunning` exactly
when a previously started task has not reached a terminal state
(conjunct 1), and a start issued on a state holding a task succeeds exactly
when that task is terminal (conjunct 2); concretely, a start immediately
followed by a second start makes the second fail with `TaskAlreadyRunning`
(conjunct 3), and after the first task reaches a terminal state — here via
`stop()` forcing Cancelled — a new start succeeds (conjunct 4). -/
theorem startAutomation_single_task (s : ControllerState) (t : TaskState) :
    ((startAutomation s).1 = StartOutcome.taskAlreadyRunning ↔ s.hasActiveTask = true)
    ∧ ((startAutomation ⟨some t⟩).1 = StartOutcome.started ↔ t.isTerminal = true)
    ∧ (startAutomation (startAutomation ⟨none⟩).2).1 = StartOutcome.taskAlreadyRunning
    ∧ (startAutomation
        (controllerStep (startAutomation ⟨none⟩).2 ControllerEvent.cmdStop)).1 =
        StartOutcome.started := by
  obtain ⟨task⟩ := s
  refine ⟨?_, ?_, by decide, by decide⟩
  · cases task with
    | none => decide
    | some st => cases st <;> decide
  · cases t <;> decide

/-- C2 counterexample.  The original claim says `awaitOperator` with
timeout `T` and no operator signal returns `TimedOut` at or after `T` and
never blocks forever.  At the concrete input `T = 600` (polls are 1 s
apart) with the completion signal never set, the wait loop of the generated
script has produced no outcome whatsoever even after 601 polls — it is
still blocked, and no `TimedOut` (or any other) result exists. -/
theorem verificationWait_no_timeout_cex :
    verificationWait (fun _ => false) (fun _ => false) 601 0 = none := by
  exact verificationWait_none (fun _ => false) 601 0

/-- C2 (amended).  The verification wait loop of the generated script has
no timeout: with the completion signal never set it is still polling after
any number of 1-second polls, regardless of the pending cancellation state
— its only exit is the operator's completion signal appearing. -/
theorem verificationWait_no_signal_never_returns
    (cancel : Nat → Bool) (fuel k : Nat) :
    verificationWait (fun _ => false) cancel fuel k = none := by
  exact verificationWait_none cancel fuel k

/-- C3 counterexample.  The original claim says a stop/cancellation request
issued while the task is blocked in the verification wait causes it to
return `Cancelled` within one polling interval.  At the concrete input
where cancellation is requested from the very first poll and no completion
signal is ever set, the loop has still returned nothing after 3 polls
(three 1-second intervals) — in particular not `Cancelled`. -/
theorem verificationWait_cancel_ignored_cex :
    verificationWait (fun _ => false) (fun _ => true) 3 0 = none := by
  exact verificationWait_none (fun _ => true) 3 0

/-- C3 (amended).  The verification wait loop never consults the
cancellation request: its behavior is identical under any two cancellation
histories, so a stop request does not unblock it (only the completion
signal does; cancellation can take effect only outside the loop, by
terminating the script process). -/
theorem verificationWait_cancel_independent
    (sig c c' : Nat → Bool) : ∀ fuel k,
    verificationWait sig c fuel k = verificationWait sig c' fuel k := by
  intro fuel
  induction fuel with
  | zero => intro k; rfl
  | succ n ih =>
    intro k
    by_cases h : sig k = true <;> simp [verificationWait, h, ih (k + 1)]

/-- Observations used by the C4 counterexample: attempt 1 (the hidden-input
strategy) finds its element, sees a zero attached-item indicator count but
sets one file; attempt 2 (the visible-input strategy) would see indicator
count 2. -/
def c4Obs : Nat → AttemptObs := fun i =>
  if i = 0 then ⟨true, 0, 0⟩
  else if i = 1 then ⟨true, 0, 1⟩
  else ⟨true, 2, 0⟩

/-- C4 counterexample.  The original claim says the loop stops at the first
strategy whose post-attempt success check — a non-zero attached-item
indicator count after the settle wait — succeeds.  On `c4Obs` the first
strategy with a non-zero indicator count is index 2, yet the loop stops at
index 1 (the hidden-input strategy, whose indicator count is 0: the code
also accepts `successfulUploads > 0` there), attempting only indices 0 and
1 and never reaching index 2. -/
theorem uploadLoop_indicator_cex :
    (uploadLoop c4Obs).2 = some 1
    ∧ (c4Obs 1).indicatorCount = 0
    ∧ firstIndicatorIdx c4Obs = some 2
    ∧ (uploadLoop c4Obs).1 = [0, 1] := by
  decide

/-- C4 (amended).  The strategy loop attempts strategies in order and stops
immediately at the first strategy whose code-level success check passes —
a non-zero attached-item indicator count after the settle wait for every
strategy except the hidden-input one, which also counts as success when at
least one file was set on the input element even with a zero indicator
count: the winner is the first index satisfying `attemptSucceeds`, the
attempted indices are exactly the prefix up to and including the winner
(all five when every strategy fails), and no strategy after the first
successful one is ever attempted. -/
theorem uploadLoop_first_success (obs : Nat → AttemptObs) :
    (uploadLoop obs).2 = firstSuccessIdx obs
    ∧ (uploadLoop obs).1 =
        (match firstSuccessIdx obs with
         | some j => List.range (j + 1)
         | none => List.range selectorStrategies.length) := by
  have h0 : ∀ o, attemptSucceeds StrategyKind.elementUiApi o = false := fun _ => rfl
  cases h1 : attemptSucceeds StrategyKind.hiddenInput (obs 1) <;>
    cases h2 : attemptSucceeds StrategyKind.visibleInput (obs 2) <;>
      cases h3 : attemptSucceeds StrategyKind.chooser (obs 3) <;>
        cases h4 : attemptSucceeds StrategyKind.fallback (obs 4) <;>
          simp [uploadLoop, runStrategies, firstSuccessIdx, strategyTable,
            selectorStrategies, List.find?_cons, h0, h1, h2, h3, h4,
            List.range_succ, List.range_zero]

/-- Observations where every strategy fails (no element is ever found). -/
def c5Obs : Nat → AttemptObs := fun _ => ⟨false, 0, 0⟩

/-- A single well-formed input file (exists, 5 bytes). -/
def c5Files : List FileCheck := [⟨true, 5, false⟩]

/-- C5 counterexample.  The original claim says exhausting every upload
strategy makes the operation fail with `UploadExhausted` and the flow does
not continue as if the upload had succeeded.  At the concrete input where
the files are valid but every strategy fails, the id-card upload block
raises nothing and execution continues to the next flow step — the
exhaustion is only logged. -/
theorem uploadExhaustion_continues_cex :
    idCardUploadBlock c5Files c5Obs = UploadBlockResult.continuedFlow false
    ∧ (uploadLoop c5Obs).2 = none := by
  decide

/-- C5 (amended).  Strategy exhaustion is not an error: for every input the
id-card upload block completes without raising (the inner catch swallows
every error and nothing rethrows), execution always continues to the next
flow step, and after exhaustion the only failure signal is the logged
diagnostics — there is no `UploadExhausted` error, and the block's
`uploadSuccess` is false exactly when no strategy succeeded (or validation
left no files). -/
theorem uploadBlock_never_raises (files : List FileCheck) (obs : Nat → AttemptObs) :
    continuesFlow (idCardUploadBlock files obs) = true
    ∧ idCardUploadBlock c5Files c5Obs = UploadBlockResult.continuedFlow false := by
  constructor
  · by_cases h : validationAborts files = true <;>
      simp [idCardUploadBlock, continuesFlow, h]
  · decide

/-- C6 counterexample.  The original claim says a zero-byte input file
aborts the upload with `InvalidUploadFile` before any strategy runs, and a
missing file likewise.  At the concrete input consisting of one existing
zero-byte file, validation does not abort — the zero-byte file itself
survives into `validFiles` and the strategy loop runs; and with one missing
file alongside one good file, validation also does not abort (the missing
file is silently dropped). -/
theorem zeroByte_file_not_rejected_cex :
    validationAborts [⟨true, 0, false⟩] = false
    ∧ validFiles [⟨true, 0, false⟩] = [⟨true, 0, false⟩]
    ∧ continuesFlow (idCardUploadBlock [⟨true, 0, false⟩] c4Obs) = true
    ∧ validationAborts [⟨false, 5, false⟩, ⟨true, 5, false⟩] = false := by
  decide

/-- C6 (amended).  The validation loop accepts every file that exists at
its path or at one of the alternative path spellings, regardless of size —
a zero-byte file only produces a warning entry; missing files are dropped
rather than aborting; the upload aborts before any strategy only when no
input file survives this filtering: an existing file of any size (zero
included) prevents the abort. -/
theorem validation_abort_condition (files : List FileCheck) (sz : Nat) (alt : Bool) :
    validationAborts files =
      files.all (fun f => !(f.onDiskAtPath || f.onDiskAtAltPath))
    ∧ validationAborts (⟨true, sz, alt⟩ :: files) = false := by
  constructor
  · induction files with
    | nil => rfl
    | cons f rest ih =>
      obtain ⟨fp, fs, fa⟩ := f
      cases fp <;> cases fa <;>
        simp [validationAborts, validFiles, List.filter_cons, List.all_cons]
      simpa [validationAborts, validFiles] using ih
  · simp [validationAborts, validFiles, List.filter_cons]

/-- C7.  Health-check polling backoff and cap: `backoffInterval` yields
2000 ms for check counts 1-3, 3000 ms for 4-8 and 5000 ms beyond, and a
monitoring run against a browser that keeps reporting "running, debug port
not ready" schedules exactly the intervals
3×2000, 5×3000, 6×5000 and then stops with the timeout diagnostics carrying
the attempt count 15 (the run starts right after the initial check, with
status `starting` and check count 1; giving the loop more fuel changes
nothing because it stops at the cap). -/
theorem monitor_backoff_cap :
    backoffInterval 1 = 2000 ∧ backoffInterval 3 = 2000
    ∧ backoffInterval 4 = 3000 ∧ backoffInterval 8 = 3000
    ∧ backoffInterval 9 = 5000 ∧ backoffInterval 14 = 5000
    ∧ monitorRun (fun _ => BrowserProbe.runningNoDebug) 100 MonitorState.starting 1 1 =
        ([2000, 2000, 2000,
          3000, 3000, 3000, 3000, 3000,
          5000, 5000, 5000, 5000, 5000, 5000],
         MonitorOutcome.timedOut 15) := by
  decide

/-- C8.  `acquire` with no preferred strategy attempts the strategies in
the fixed order AttachExisting, PersistentProfile, Ephemeral — its result
is the first strategy of `fallbackOrder` that succeeds (conjunct 1, and it
coincides with the three-strategy script chain, conjunct 3); with a pinned
strategy it attempts exactly the one-element list holding that strategy, so
there is no fallback and failure surfaces directly (conjunct 2, and pinning
AttachExisting coincides with the CDP-only script variant, conjunct 4). -/
theorem acquire_strategy_order (env : ConnectionStrategy → Bool)
    (s : ConnectionStrategy) :
    acquire env none = fallbackOrder.find? env
    ∧ acquire env (some s) = [s].find? env
    ∧ acquire env none = acquireChain env
    ∧ acquire env (some ConnectionStrategy.attachExisting) = acquireCdpOnly env := by
  refine ⟨?_, ?_, rfl, ?_⟩
  · cases h1 : env ConnectionStrategy.attachExisting <;>
      cases h2 : env ConnectionStrategy.persistentProfile <;>
        cases h3 : env ConnectionStrategy.ephemeral <;>
          simp [acquire, acquireChain, fallbackOrder, List.find?, h1, h2, h3]
  · cases h : env s <;> simp [acquire, List.find?, h]
  · cases h : env ConnectionStrategy.attachExisting <;>
      simp [acquire, acquireCdpOnly, h]

/-- C9 counterexample.  The original claim says
`stage(source, 'profiles', 'id_cards')` returns a relative path beginning
with `profiles/id_cards/`.  At the concrete input — the scenario's
`id_front.png` with the timestamp disambiguator seen in the generated
script — the returned relative path begins with `files/profiles/id_cards/`
and therefore not with `profiles/id_cards/`; the frontend wrapper's own
mock branch returns the same `files/`-rooted form. -/
theorem stage_prefix_cex :
    strStarts (stage "id_front" "png" "profiles" "id_cards" 1756095658)
      "profiles/id_cards/" = false
    ∧ stage "id_front" "png" "profiles" "id_cards" 1756095658 =
        "files/profiles/id_cards/id_front_1756095658.png"
    ∧ strStarts (copyFileToAppDataMock "profiles" "id_cards" 1756095658)
        "profiles/id_cards/" = false := by
  decide

/-- C9 (amended).  For every source file, staging under category `profiles`
and subcategory `id_cards` returns a relative path that begins with
`files/profiles/id_cards/` and whose final component is the original
basename suffixed by the timestamp disambiguator (the path decomposes as
the fixed directory prefix followed by `basename_timestamp.ext`); the
frontend wrapper's mock branch returns a path under the same prefix. -/
theorem stage_path_shape (base ext : String) (ts : Nat) :
    strStarts (stage base ext "profiles" "id_cards" ts)
      "files/profiles/id_cards/" = true
    ∧ (stage base ext "profiles" "id_cards" ts).data =
        "files/profiles/id_cards/".data ++
          (base ++ "_" ++ toString ts ++ "." ++ ext).data
    ∧ strStarts (copyFileToAppDataMock "profiles" "id_cards" ts)
        "files/profiles/id_cards/" = true := by
  have hconst : ("files/" : String) ++ "profiles" ++ "/" ++ "id_cards" ++ "/" =
      "files/profiles/id_cards/" := rfl
  have hdata : (stage base ext "profiles" "id_cards" ts).data =
      "files/profiles/id_cards/".data ++
        (base ++ "_" ++ toString ts ++ "." ++ ext).data := by
    unfold stage
    rw [hconst]
    simp [String.data_append, List.append_assoc]
  refine ⟨?_, hdata, ?_⟩
  · unfold strStarts
    rw [hdata]
    exact isPrefixOf_append _ _
  · have hm : ("files/" : String) ++ "profiles" ++ "/" ++ "id_cards" ++ "/mock_" =
        "files/profiles/id_cards/" ++ "mock_" := rfl
    unfold strStarts copyFileToAppDataMock
    rw [hm]
    simp [String.data_append, List.append_assoc, isPrefixOf_append]

/-- C10.  Outside the Tauri desktop shell (`isTauri = false`) the public
automation commands are mocks that never reach the orchestration engine:
`startAutomation` performs no backend `invoke` (it only shows an alert),
and `getAutomationStatus` performs no backend `invoke` and always returns a
status with `isRunning = false`, whatever the real backend status would
have been. -/
theorem non_tauri_mocks (backend : AutomationStatus) :
    invokesBackend (startAutomationApi false) = false
    ∧ (getAutomationStatusApi false backend).1.isRunning = false
    ∧ invokesBackend (getAutomationStatusApi false backend).2 = false := by
  exact ⟨rfl, rfl, rfl⟩

end RightsGuard
